import Mathlib

/-!
Shallow embedding of `scripts/plot_ious_analysis.py`: the input resolver
(`get_files_list`), the aggregation loop in `main`, the metric computation
(truncation, element-wise mean, trapezoidal AUC as in `sklearn.metrics.auc`),
the renderer loop, and the output-filename scheme (`get_target_file_path`).
Filesystem globbing is abstracted as a function from glob-pattern strings to
lists of matching path strings; Python floats are modelled as rationals;
Python exceptions are modelled with `Except String`.
-/

namespace PlotIous

/-! ### String utilities modelling Python `str` / `pathlib.Path` operations -/

/-- Lexicographic comparison of character lists by Unicode code point, the
order Python uses to sort `str` (and single-component `Path`) values. -/
def lexLe : List Char → List Char → Bool
  | [], _ => true
  | _ :: _, [] => false
  | a :: as, b :: bs =>
    if a < b then true
    else if b < a then false
    else lexLe as bs

/-- Lexicographic `≤` on strings. -/
def strLeB (a b : String) : Bool :=
  lexLe a.data b.data

/-- Python `list.sort()` / `sorted()` on path strings: the lexicographically
sorted permutation.  (Python's sort is stable, but ties here are identical
strings, so every correct sort returns the same list; insertion sort keeps
the model kernel-computable.) -/
def sortStr (l : List String) : List String :=
  List.insertionSort (fun a b => strLeB a b = true) l

/-- Does `s` start with the character list `p`? (Python `str.startswith`.) -/
def startsList : List Char → List Char → Bool
  | [], _ => true
  | _ :: _, [] => false
  | a :: as, b :: bs => a == b && startsList as bs

/-- Does `sub` occur as a contiguous run inside `s`? (Python `sub in s`.) -/
def hasSub (sub : List Char) : List Char → Bool
  | [] => startsList sub []
  | c :: rest => startsList sub (c :: rest) || hasSub sub rest

/-- Python substring test `sub in s` on strings. -/
def strContainsSub (s sub : String) : Bool :=
  hasSub sub.data s.data

/-- Does `s` end with the character list `sub`? (Python `str.endswith`.) -/
def endsList (sub s : List Char) : Bool :=
  startsList sub.reverse s.reverse

/-- Split a character list at every occurrence of the separator `c`
(Python `str.split(sep)` for a one-character separator, which is how the
script always calls it: on `'/'`, `':'` and `'_'`). -/
def splitChar (c : Char) : List Char → List (List Char)
  | [] => [[]]
  | a :: rest =>
    if a == c then [] :: splitChar c rest
    else
      match splitChar c rest with
      | [] => [[a]]
      | h :: t => (a :: h) :: t

/-- The decimal digit value of a character, if it is one. -/
def chDigit (c : Char) : Option Nat :=
  if 48 ≤ c.toNat ∧ c.toNat ≤ 57 then some (c.toNat - 48) else none

/-- Accumulating decimal parser over digit characters. -/
def parseNatAux (acc : Nat) : List Char → Option Nat
  | [] => some acc
  | c :: rest =>
    match chDigit c with
    | some d => parseNatAux (acc * 10 + d) rest
    | none => none

/-- Python `int(s)` on a token expected to be a run of decimal digits:
`some` of its value, `none` (a `ValueError`) on an empty or non-digit
token. -/
def parseNatChars : List Char → Option Nat
  | [] => none
  | c :: rest => parseNatAux 0 (c :: rest)

/-- Index (from the start) of the last occurrence of `c`, or `none`
(Python `str.rfind` returning `-1`). -/
def lastIdxOf (c : Char) (l : List Char) : Option Nat :=
  match l with
  | [] => none
  | a :: rest =>
    match lastIdxOf c rest with
    | some i => some (i + 1)
    | none => if a == c then some 0 else none

/-- `pathlib.PurePath.stem` of a final path component `name`: the component
without its last suffix.  CPython: with `i = name.rfind('.')`, the stem is
`name[:i]` when `0 < i < len(name) - 1`, else `name` itself. -/
def stemOfName (name : List Char) : List Char :=
  match lastIdxOf '.' name with
  | some i => if 0 < i ∧ i < name.length - 1 then name.take i else name
  | none => name

/-- `pathlib.Path.stem` of a path string: the stem of its final component. -/
def pyStem (s : String) : String :=
  String.mk (stemOfName ((splitChar '/' s.data).getLastD s.data))

/-- `pathlib.Path.parent` of a path string: all components but the last,
joined with `/`; `"."` when there is a single component. -/
def pyParent (s : String) : String :=
  let comps := splitChar '/' s.data
  if comps.length ≤ 1 then "."
  else String.mk (List.intercalate ['/'] comps.dropLast)

/-- Python `f'{i:03d}'`: decimal rendering zero-padded to at least 3 digits. -/
def pad3 (i : Nat) : String :=
  let s := toString i
  if s.length < 3 then String.mk (List.replicate (3 - s.length) '0') ++ s
  else s

/-! ### Click-cap truncation (`main`, lines 117 and 126–127)

The aggregator maps `x[:] if args.n_clicks == -1 else x[:args.n_clicks]`
over the per-image sequences, and the plotting loop re-applies
`model_results[:args.n_clicks]` whenever `args.n_clicks != -1`.  Both are
Python slice `x[:n]`, applied exactly when `n ≠ -1`. -/

/-- Python slice `x[:n]`: first `n` elements when `n ≥ 0`, and all but the
last `|n|` elements when `n < 0` (stop index `max(0, len + n)`). -/
def pySlice {α : Type} (n : Int) (xs : List α) : List α :=
  if 0 ≤ n then xs.take n.toNat
  else xs.take (xs.length - (-n).toNat)

/-- The script's truncation of one sequence under click cap `n_clicks`:
identity for `-1`, Python slice `x[:n_clicks]` otherwise. -/
def truncate_ious {α : Type} (n_clicks : Int) (x : List α) : List α :=
  if n_clicks = -1 then x else pySlice n_clicks x

/-! ### Aggregation (`main`, lines 112–118)

`aggregated_plot_data` is a dict of dicts `dataset_name -> model_name ->
np.array(truncated all_ious).mean(0)`.  Python dicts keep first-insertion
order on overwrite; `dictSet` models that. -/

/-- One deserialized result container (`pickle.load` output): fields
`dataset_name`, `model_name`, `all_ious`. -/
structure ResultContainer where
  dataset_name : String
  model_name : String
  all_ious : List (List ℚ)

/-- Python dict assignment `m[k] = v` on an insertion-ordered association
list: overwrite in place, else append at the end. -/
def dictSet {V : Type} : List (String × V) → String → V → List (String × V)
  | [], k, v => [(k, v)]
  | (k0, v0) :: rest, k, v =>
    if k0 = k then (k, v) :: rest else (k0, v0) :: dictSet rest k v

/-- Python dict lookup `m[k]` on an association list (first match). -/
def lookupA {V : Type} : List (String × V) → String → Option V
  | [], _ => none
  | (k0, v0) :: rest, k => if k0 = k then some v0 else lookupA rest k

/-- `np.array(rows).mean(0)` for a rectangular list of rows: the sequence of
column means, indexed by the first row's length. -/
def npMeanAxis0 (rows : List (List ℚ)) : List ℚ :=
  match rows with
  | [] => []
  | r0 :: _ =>
    (List.range r0.length).map
      (fun k => (rows.map (fun r => r.getD k 0)).sum / (rows.length : ℚ))

/-- The averaged sequence the aggregation loop stores for one container
(line 117–118): truncate each per-image sequence, then column-mean. -/
def aggValue (n_clicks : Int) (c : ResultContainer) : List ℚ :=
  npMeanAxis0 (c.all_ious.map (truncate_ious n_clicks))

/-- The aggregation loop of `main` over a list of deserialized containers:
builds the two-level insertion-ordered dict. -/
def aggregate (n_clicks : Int) (cs : List ResultContainer) :
    List (String × List (String × List ℚ)) :=
  cs.foldl
    (fun acc c =>
      let inner := (lookupA acc c.dataset_name).getD []
      dictSet acc c.dataset_name
        (dictSet inner c.model_name (aggValue n_clicks c)))
    []

/-- Arithmetic mean of a list of rationals (`sum / length`). -/
def listMean (l : List ℚ) : ℚ :=
  l.sum / (l.length : ℚ)

/-! ### Trapezoidal AUC (`sklearn.metrics.auc`, used at lines 146–149) -/

/-- Successive differences (`np.diff`). -/
def diffs : List ℚ → List ℚ
  | a :: b :: rest => (b - a) :: diffs (b :: rest)
  | _ => []

/-- Trapezoidal-rule area (`np.trapz(y, x)`):
`Σ (x_{i+1} - x_i) * (y_i + y_{i+1}) / 2`. -/
def trapz : List ℚ → List ℚ → ℚ
  | x0 :: x1 :: xs, y0 :: y1 :: ys =>
    (x1 - x0) * (y0 + y1) / 2 + trapz (x1 :: xs) (y1 :: ys)
  | _, _ => 0

/-- `sklearn.metrics.auc(x, y)`: raises (`none`) for fewer than 2 points or
non-monotonic `x`; negates the trapezoidal area when `x` is decreasing. -/
def sklearn_auc (x y : List ℚ) : Option ℚ :=
  if x.length < 2 ∨ x.length ≠ y.length then none
  else
    let dx := diffs x
    if dx.any (fun d => decide (d < 0)) then
      if dx.all (fun d => decide (d ≤ 0)) then some (-(trapz x y))
      else none
    else some (trapz x y)

/-- Click indices `1 + np.arange(n)` starting at `a`; the code uses `a = 1`. -/
def xFrom (a : ℚ) : Nat → List ℚ
  | 0 => []
  | n + 1 => a :: xFrom (a + 1) n

/-- `1 + np.arange(n)` as rationals (line 146). -/
def xClicks (n : Nat) : List ℚ :=
  xFrom 1 n

/-- Normalized AUC of a plotted sequence `ys` (lines 146–149):
`metrics.auc(x, ys) / metrics.auc(x, np.ones(n))` with `x = 1 + arange(n)`. -/
def auc_normalized (ys : List ℚ) : Option ℚ :=
  match sklearn_auc (xClicks ys.length) (List.replicate ys.length 1),
        sklearn_auc (xClicks ys.length) ys with
  | some total_area, some auc => some (auc / total_area)
  | _, _ => none

/-! ### Input resolver (`get_files_list`, lines 181–215)

The filesystem is abstracted as `fs : String → List String`, sending a glob
pattern to the list of matching paths (in scan order, as `Path.glob` yields
them).  Python exceptions — the `ValueError` from unpacking `split(':')`,
the `assert len(candidates) == 1`, and the `UnboundLocalError` when no
source flag was given — become `Except.error` values. -/

/-- The parsed command-line arguments this script reads
(`parse_args`, after `--datasets` is split on commas). -/
structure Args where
  folder : Option String
  files : Option (List String)
  model_dirs : Option (List String)
  exp_models : Option (List String)
  mode : Option (List String)
  datasets : List String
  n_clicks : Int

/-- The loaded configuration; only `cfg.EXPS_PATH` is used. -/
structure Cfg where
  EXPS_PATH : String

/-- The glob `exp_path_prefix.parent.glob(exp_path_prefix.stem + '*')` run
for one `--exp-models` path fragment `rel` (lines 201–202). -/
def exp_candidates (fs : String → List String) (cfg : Cfg) (rel : String) :
    List String :=
  let p := cfg.EXPS_PATH ++ "/evaluation_logs/" ++ rel
  fs (pyParent p ++ "/" ++ pyStem p ++ "*")

/-- The `--exp-models` branch (lines 196–205): split each entry on `:`
(`ValueError` unless exactly two parts), glob for the experiment directory
(`AssertionError` unless exactly one match), then collect the sorted
`<exp>/plots/<ck><anything>.pickle` matches, concatenated in entry order. -/
def exp_models_files (fs : String → List String) (cfg : Cfg) :
    List String → Except String (List String)
  | [] => Except.ok []
  | e :: rest =>
    match splitChar ':' e.data with
    | [rel, ck] =>
      if (exp_candidates fs cfg (String.mk rel)).length = 1 then
        let exp_path := (exp_candidates fs cfg (String.mk rel)).getD 0 ""
        match exp_models_files fs cfg rest with
        | Except.ok tl =>
            Except.ok
              (sortStr (fs (exp_path ++ "/plots/" ++ String.mk ck ++ "*.pickle"))
                ++ tl)
        | Except.error err => Except.error err
      else Except.error "AssertionError: Invalid experiment path."
    | _ => Except.error "ValueError: split"

/-- The four-way `if/elif` chain of `get_files_list` (lines 183–205):
`some files_list` when a branch assigned `files_list`, `none` when no
source flag was given and the variable stays unbound. -/
def resolve_source (fs : String → List String) (cfg : Cfg) (args : Args) :
    Except String (Option (List String)) :=
  match args.folder with
  | some f => Except.ok (some (fs (f ++ "/*.pickle")))
  | none =>
    match args.files with
    | some l => Except.ok (some l)
    | none =>
      match args.model_dirs with
      | some ds =>
          Except.ok (some (ds.flatMap (fun d => fs (d ++ "/plots/*.pickle"))))
      | none =>
        match args.exp_models with
        | some es => (exp_models_files fs cfg es).map some
        | none => Except.ok none

/-- Does a path pass the `--mode` filter (lines 207–209)?  Applied whenever
`args.mode is not None`, it keeps paths whose stem contains at least one of
the listed modes; an empty mode list keeps nothing. -/
def modeKeeps (mode : Option (List String)) (f : String) : Bool :=
  match mode with
  | none => true
  | some ms => ms.any (fun m => strContainsSub (pyStem f) m)

/-- Does a path pass the `--datasets` filter (lines 210–211)? -/
def datasetKeeps (datasets : List String) (f : String) : Bool :=
  datasets.any (fun d => strContainsSub (pyStem f) d)

/-- `get_files_list(args, cfg)`: resolve the source branch, apply the mode
and dataset stem filters, and sort (`files_list.sort()`).  Referencing the
never-assigned `files_list` in the filter stage is the
`UnboundLocalError`. -/
def get_files_list (fs : String → List String) (cfg : Cfg) (args : Args) :
    Except String (List String) :=
  match resolve_source fs cfg args with
  | Except.error err => Except.error err
  | Except.ok none =>
      Except.error
        "UnboundLocalError: local variable files_list referenced before assignment"
  | Except.ok (some files0) =>
      let files1 := files0.filter (fun f => modeKeeps args.mode f)
      let files2 := files1.filter (fun f => datasetKeeps args.datasets f)
      Except.ok (sortStr files2)

/-- The container files `main` opens (lines 114–115): every path returned by
`get_files_list`, and none at all when the resolver failed. -/
def opened_files (fs : String → List String) (cfg : Cfg) (args : Args) :
    List String :=
  match get_files_list fs cfg args with
  | Except.ok l => l
  | Except.error _ => []

/-! ### Output filename scheme (`get_target_file_path`, lines 171–178) -/

/-- Match of a single-component filename against the glob
`pre*suf` (here `pre = dataset_name ++ "_"`, `suf = ".png"`): the name is
`pre`, then anything, then `suf`. -/
def globMidMatch (pre suf name : String) : Bool :=
  startsList pre.data name.data &&
    endsList suf.data (name.data.drop pre.data.length)

/-- The filenames in the plots directory that
`plots_path.glob(f'{dataset_name}_*.png')` returns, in scan order. -/
def previousPlots (dirFiles : List String) (dataset_name : String) :
    List String :=
  dirFiles.filter (fun f => globMidMatch (dataset_name ++ "_") ".png" f)

/-- `get_target_file_path(plots_path, dataset_name)` over the list of
filenames already in the plots directory: sort the matching plots, take the
last, parse the final `_`-separated token of its stem with `int()`
(`ValueError` if non-numeric), and use its value plus one — or index 0 when
nothing matched.  The result is `f'{dataset_name}_{index:03d}.png'`. -/
def get_target_file_path (dirFiles : List String) (dataset_name : String) :
    Except String String :=
  match (sortStr (previousPlots dirFiles dataset_name)).getLast? with
  | none => Except.ok (dataset_name ++ "_" ++ pad3 0 ++ ".png")
  | some lastPlot =>
    match parseNatChars ((splitChar '_' (pyStem lastPlot).data).getLastD []) with
    | none => Except.error "ValueError: invalid literal for int()"
    | some i => Except.ok (dataset_name ++ "_" ++ pad3 (i + 1) ++ ".png")

/-! ### Renderer (`main`, lines 120–168) -/

/-- The static per-dataset y-axis table `range_mapper` (lines 96–105). -/
def range_mapper : List (String × (Int × Int × Int)) :=
  [("SBD", (65, 96, 3)),
   ("DAVIS", (66, 97, 3)),
   ("Pascal VOC", (66, 100, 3)),
   ("COCO_MVal", (60, 97, 3)),
   ("BraTS", (10, 100, 10)),
   ("OAIZIB", (0, 85, 10)),
   ("ssTEM", (5, 100, 10)),
   ("GrabCut", (80, 100, 2)),
   ("Berkeley", (80, 100, 2))]

/-- The per-model computation of the plotting loop (lines 126–151): re-apply
the click-cap slice, scale to percent, take min/max (`ValueError` on an
empty sequence), and compute the normalized AUC (`metrics.auc` raises below
2 points).  Returns the normalized AUC. -/
def model_render (n_clicks : Int) (results : List ℚ) : Except String ℚ :=
  let mr := (truncate_ious n_clicks results).map (fun v => v * 100)
  if mr.length = 0 then
    Except.error "ValueError: min() arg is an empty sequence"
  else
    match auc_normalized mr with
    | some a => Except.ok a
    | none => Except.error "ValueError: At least 2 points are needed"

/-- Rendering one dataset figure (lines 120–168): run the per-model loop,
rewrite the display name (`PascalVOC` → `Pascal VOC`, lines 153–154), look
up `range_mapper[dataset_name]` (`KeyError` when absent, line 160), then
compute the output path.  Returns the filename that `plt.savefig` writes. -/
def render_dataset (n_clicks : Int) (dirFiles : List String)
    (dataset_name : String) (models : List (String × List ℚ)) :
    Except String String :=
  match models.foldlM (fun _ m => (model_render n_clicks m.2).map (fun _ => ())) () with
  | Except.error err => Except.error err
  | Except.ok _ =>
    let dsDisp := if dataset_name = "PascalVOC" then "Pascal VOC" else dataset_name
    match lookupA range_mapper dsDisp with
    | none => Except.error ("KeyError: " ++ dsDisp)
    | some _ => get_target_file_path dirFiles dsDisp

/-- The dataset loop of `main` (line 120 onwards) threaded through the
plots-directory state: returns the figure files saved in order, the final
directory contents, and the first uncaught exception if any.  A failing
dataset stops the run; earlier figures remain written. -/
def render_all (n_clicks : Int) (dirFiles : List String) :
    List (String × List (String × List ℚ)) →
    List String × List String × Option String
  | [] => ([], dirFiles, none)
  | (ds, models) :: rest =>
    match render_dataset n_clicks dirFiles ds models with
    | Except.error err => ([], dirFiles, some err)
    | Except.ok fig =>
      let out := render_all n_clicks (dirFiles ++ [fig]) rest
      (fig :: out.1, out.2.1, out.2.2)

/-! ### Order lemmas for `lexLe` / `strLeB` -/

theorem lexLe_refl : ∀ a : List Char, lexLe a a = true
  | [] => rfl
  | x :: xs => by simp [lexLe, lt_irrefl, lexLe_refl xs]

theorem lexLe_total : ∀ a b : List Char, lexLe a b = true ∨ lexLe b a = true
  | [], _ => Or.inl rfl
  | _ :: _, [] => Or.inr rfl
  | x :: xs, y :: ys => by
    rcases lt_trichotomy x y with hlt | heq | hgt
    · left; simp [lexLe, hlt]
    · subst heq
      rcases lexLe_total xs ys with h | h
      · left; simp [lexLe, lt_irrefl, h]
      · right; simp [lexLe, lt_irrefl, h]
    · right; simp [lexLe, hgt]

theorem lexLe_trans :
    ∀ a b c : List Char, lexLe a b = true → lexLe b c = true → lexLe a c = true
  | [], _, _, _, _ => rfl
  | _ :: _, [], _, h1, _ => by simp [lexLe] at h1
  | _ :: _, _ :: _, [], _, h2 => by simp [lexLe] at h2
  | x :: xs, y :: ys, z :: zs, h1, h2 => by
    rcases lt_trichotomy x y with hxy | hxy | hxy
    · rcases lt_trichotomy y z with hyz | hyz | hyz
      · simp [lexLe, lt_trans hxy hyz]
      · subst hyz; simp [lexLe, hxy]
      · simp [lexLe, not_lt_of_gt hyz, hyz] at h2
    · subst hxy
      rcases lt_trichotomy x z with hyz | hyz | hyz
      · simp [lexLe, hyz]
      · subst hyz
        simp only [lexLe, lt_irrefl, if_false] at h1 h2 ⊢
        exact lexLe_trans xs ys zs h1 h2
      · simp [lexLe, not_lt_of_gt hyz, hyz] at h2
    · simp [lexLe, not_lt_of_gt hxy, hxy] at h1

theorem lexLe_antisymm :
    ∀ a b : List Char, lexLe a b = true → lexLe b a = true → a = b
  | [], [], _, _ => rfl
  | [], _ :: _, _, h2 => by simp [lexLe] at h2
  | _ :: _, [], h1, _ => by simp [lexLe] at h1
  | x :: xs, y :: ys, h1, h2 => by
    rcases lt_trichotomy x y with hxy | hxy | hxy
    · simp [lexLe, not_lt_of_gt hxy, hxy] at h2
    · subst hxy
      simp only [lexLe, lt_irrefl, if_false] at h1 h2
      rw [lexLe_antisymm xs ys h1 h2]
    · simp [lexLe, not_lt_of_gt hxy, hxy] at h1

theorem strLeB_trans (a b c : String) :
    strLeB a b = true → strLeB b c = true → strLeB a c = true :=
  lexLe_trans a.data b.data c.data

theorem strLeB_total (a b : String) : strLeB a b || strLeB b a := by
  rcases lexLe_total a.data b.data with h | h <;> simp [strLeB, h]

theorem strLeB_antisymm (a b : String) :
    strLeB a b = true → strLeB b a = true → a = b := by
  intro h1 h2
  apply String.ext
  exact lexLe_antisymm a.data b.data h1 h2

/-! ### Claim theorems -/

/-- C3 counterexample: with the click cap configured as `0` — a non-positive
value other than `-1` — the code does not keep the sequence whole: the slice
`x[:0]` empties it. -/
theorem C3_counterexample :
    truncate_ious 0 [(1 : ℚ)] = [] ∧ truncate_ious 0 [(1 : ℚ)] ≠ [(1 : ℚ)] := by
  constructor
  · rfl
  · decide

/-- C3 (amended): a positive click cap truncates each per-image sequence to
its first `cap` entries — making the truncated length `min (input length)
cap` — and the cap `-1` keeps the sequence whole; other non-positive caps
follow Python slice semantics instead of keeping the sequence whole. -/
theorem C3_truncation (n : Int) (x : List ℚ) :
    (0 < n →
      truncate_ious n x = x.take n.toNat ∧
      (truncate_ious n x).length = min x.length n.toNat) ∧
    (n = -1 → truncate_ious n x = x) := by
  constructor
  · intro hn
    have hne : n ≠ -1 := by omega
    have h0 : 0 ≤ n := le_of_lt hn
    constructor
    · simp [truncate_ious, pySlice, hne, h0]
    · simp [truncate_ious, pySlice, hne, h0, List.length_take, Nat.min_comm]
  · intro hn
    simp [truncate_ious, hn]

/-- C3 witness: cap 2 on a length-3 sequence, and cap -1. -/
theorem C3_truncation_witness :
    (truncate_ious 2 [(5 : ℚ), 7, 9] = List.take (Int.toNat 2) [(5 : ℚ), 7, 9] ∧
      (truncate_ious 2 [(5 : ℚ), 7, 9]).length =
        min (List.length [(5 : ℚ), 7, 9]) (Int.toNat 2)) ∧
    truncate_ious (-1) [(5 : ℚ), 7, 9] = [(5 : ℚ), 7, 9] :=
  ⟨(C3_truncation 2 [(5 : ℚ), 7, 9]).1 (by decide),
   (C3_truncation (-1) [(5 : ℚ), 7, 9]).2 rfl⟩

/-- C4 counterexample: with cap `-2`, truncating twice is not the same as
truncating once — each application of `x[:-2]` drops two more trailing
elements. -/
theorem C4_counterexample :
    truncate_ious (-2) (truncate_ious (-2) [(0 : ℚ), 0, 0, 0]) ≠
      truncate_ious (-2) [(0 : ℚ), 0, 0, 0] := by
  decide

/-- C4 (amended): truncation is idempotent for every cap that is
nonnegative or `-1` — in particular for every cap the tool documents
(positive caps and the unbounded sentinel `-1`) — but not for caps `≤ -2`. -/
theorem C4_truncation_idempotent (n : Int) (x : List ℚ)
    (h : 0 ≤ n ∨ n = -1) :
    truncate_ious n (truncate_ious n x) = truncate_ious n x := by
  rcases h with h | h
  · have hne : n ≠ -1 := by omega
    simp [truncate_ious, pySlice, hne, h, List.take_take]
  · simp [truncate_ious, h]

/-- C4 witness: cap 2 applied twice to a length-4 sequence. -/
theorem C4_truncation_idempotent_witness :
    truncate_ious 2 (truncate_ious 2 [(1 : ℚ), 2, 3, 4]) =
      truncate_ious 2 [(1 : ℚ), 2, 3, 4] :=
  C4_truncation_idempotent 2 [(1 : ℚ), 2, 3, 4] (Or.inl (by decide))

/-- Columns of `np.array(rows).mean(0)`: for nonempty rectangular input the
result has the common row length, and entry `k` is the arithmetic mean of
the `k`-th column. -/
theorem npMeanAxis0_spec (rows : List (List ℚ)) (N : Nat)
    (hne : rows ≠ []) (hlen : ∀ r ∈ rows, r.length = N) :
    (npMeanAxis0 rows).length = N ∧
    ∀ k, k < N →
      (npMeanAxis0 rows).getD k 0 = listMean (rows.map (fun r => r.getD k 0)) := by
  match rows with
  | [] => exact absurd rfl hne
  | r0 :: rest =>
    have hr0 : r0.length = N := hlen r0 (by simp)
    constructor
    · simp [npMeanAxis0, hr0]
    · intro k hk
      have hk0 : k < r0.length := by rw [hr0]; exact hk
      rw [npMeanAxis0]
      rw [List.getD_eq_getElem?_getD, List.getElem?_map, List.getElem?_range hk0]
      simp [listMean]

/-- C1: for a container whose truncated per-image IoU sequences are nonempty
and all of length `N`, the aggregation loop stores under
`(dataset_name, model_name)` a sequence of length `N` whose `k`-th entry is
the arithmetic mean of the `k`-th entries of the per-image sequences. -/
theorem C1_aggregator_column_mean (n : Int) (c : ResultContainer) (N : Nat)
    (hne : c.all_ious ≠ [])
    (hlen : ∀ r ∈ c.all_ious.map (truncate_ious n), r.length = N) :
    ∃ v, (lookupA (aggregate n [c]) c.dataset_name).bind
            (fun inner => lookupA inner c.model_name) = some v ∧
      v.length = N ∧
      ∀ k, k < N →
        v.getD k 0 =
          listMean ((c.all_ious.map (truncate_ious n)).map (fun r => r.getD k 0)) := by
  refine ⟨aggValue n c, ?_, ?_⟩
  · simp [aggregate, dictSet, lookupA]
  · have hne2 : c.all_ious.map (truncate_ious n) ≠ [] := by
      intro h
      exact hne (List.map_eq_nil_iff.mp h)
    exact npMeanAxis0_spec (c.all_ious.map (truncate_ious n)) N hne2 hlen

/-- C1 witness: two images, two clicks, no truncation. -/
theorem C1_aggregator_column_mean_witness :
    ∃ v,
      (lookupA
          (aggregate (-1)
            [ResultContainer.mk "GrabCut" "m" [[1/2, 1], [1, 1/2]]])
          (ResultContainer.mk "GrabCut" "m" [[1/2, 1], [1, 1/2]]).dataset_name).bind
        (fun inner =>
          lookupA inner
            (ResultContainer.mk "GrabCut" "m" [[1/2, 1], [1, 1/2]]).model_name) = some v ∧
      v.length = 2 ∧
      ∀ k, k < 2 →
        v.getD k 0 =
          listMean
            (((ResultContainer.mk "GrabCut" "m" [[1/2, 1], [1, 1/2]]).all_ious.map
                (truncate_ious (-1))).map (fun r => r.getD k 0)) :=
  C1_aggregator_column_mean (-1)
    (ResultContainer.mk "GrabCut" "m" [[1/2, 1], [1, 1/2]]) 2
    (by decide) (by decide)

/-! ### Lemmas on the trapezoidal AUC -/

theorem xFrom_length : ∀ (n : Nat) (a : ℚ), (xFrom a n).length = n
  | 0, _ => rfl
  | n + 1, a => by simp [xFrom, xFrom_length n (a + 1)]

theorem diffs_xFrom :
    ∀ (n : Nat) (a : ℚ), diffs (xFrom a (n + 1)) = List.replicate n 1
  | 0, _ => rfl
  | n + 1, a => by
    have h := diffs_xFrom n (a + 1)
    simp only [xFrom] at h ⊢
    rw [diffs, h]
    simp [List.replicate_succ]

theorem trapz_xFrom_ones :
    ∀ (n : Nat) (a : ℚ),
      trapz (xFrom a (n + 1)) (List.replicate (n + 1) 1) = (n : ℚ)
  | 0, _ => rfl
  | n + 1, a => by
    have h := trapz_xFrom_ones n (a + 1)
    simp only [xFrom, List.replicate_succ] at h ⊢
    rw [trapz, h]
    push_cast
    ring

/-- `sklearn.metrics.auc` on `x = 1..n` against the constant-1 curve
equals `n - 1` for `n ≥ 2`. -/
theorem sklearn_auc_ones (n : Nat) (h : 2 ≤ n) :
    sklearn_auc (xClicks n) (List.replicate n 1) = some ((n : ℚ) - 1) := by
  obtain ⟨m, rfl⟩ : ∃ m, n = m + 2 := ⟨n - 2, by omega⟩
  have hlen : (xClicks (m + 2)).length = m + 2 := xFrom_length (m + 2) 1
  have hdx : diffs (xClicks (m + 2)) = List.replicate (m + 1) 1 :=
    diffs_xFrom (m + 1) 1
  have htr :
      trapz (xClicks (m + 2)) (List.replicate (m + 2) 1) = ((m + 1 : Nat) : ℚ) :=
    trapz_xFrom_ones (m + 1) 1
  rw [sklearn_auc, if_neg (by simp [hlen])]
  simp only [hdx, htr]
  rw [if_neg (by simp [List.any_eq_true])]
  congr 1
  push_cast
  ring

/-- C2: the normalized AUC of the constant all-1.0 sequence of any length
`n ≥ 2` — trapezoidal area over `x = 1..n` divided by the trapezoidal area
of the constant-1 curve over the same range — is exactly 1. -/
theorem C2_auc_of_ones (n : Nat) (h : 2 ≤ n) :
    auc_normalized (List.replicate n 1) = some 1 := by
  have hone : ((n : ℚ) - 1) ≠ 0 := by
    have : (2 : ℚ) ≤ (n : ℚ) := by exact_mod_cast h
    intro hc
    nlinarith
  rw [auc_normalized, List.length_replicate, sklearn_auc_ones n h]
  show some (((n : ℚ) - 1) / ((n : ℚ) - 1)) = some 1
  rw [div_self hone]

/-- C2 witness: the flat sequence of five ones. -/
theorem C2_auc_of_ones_witness :
    auc_normalized (List.replicate 5 1) = some 1 :=
  C2_auc_of_ones 5 (by decide)

/-! ### Lemmas on `sortStr` and `get_files_list` -/

theorem sortStr_sorted (l : List String) :
    (sortStr l).Pairwise (fun a b => strLeB a b = true) := by
  have htot : IsTotal String (fun a b => strLeB a b = true) :=
    ⟨fun a b => lexLe_total a.data b.data⟩
  have htr : IsTrans String (fun a b => strLeB a b = true) :=
    ⟨fun a b c h1 h2 => strLeB_trans a b c h1 h2⟩
  exact @List.sorted_insertionSort _ _ _ htot htr l

theorem mem_sortStr {l : List String} {x : String} : x ∈ sortStr l ↔ x ∈ l :=
  List.mem_insertionSort _

/-- Inversion of a successful `get_files_list` run: the result is the sorted
double filter of whatever the source branch produced. -/
theorem get_files_list_ok (fs : String → List String) (cfg : Cfg) (args : Args)
    (l : List String) (h : get_files_list fs cfg args = Except.ok l) :
    ∃ files0, resolve_source fs cfg args = Except.ok (some files0) ∧
      l = sortStr ((files0.filter (fun f => modeKeeps args.mode f)).filter
            (fun f => datasetKeeps args.datasets f)) := by
  unfold get_files_list at h
  cases hres : resolve_source fs cfg args with
  | error e => rw [hres] at h; simp at h
  | ok o =>
    cases o with
    | none => rw [hres] at h; simp at h
    | some files0 =>
      rw [hres] at h
      simp only [Except.ok.injEq] at h
      exact ⟨files0, rfl, h.symm⟩

/-- C10: with none of the four source flags given, no branch of
`get_files_list` assigns `files_list`, and referencing it in the filter
stage is an unbound-local failure — the resolver returns no list at all,
in particular not an empty one. -/
theorem C10_no_source_flag (fs : String → List String) (cfg : Cfg)
    (mode : Option (List String)) (datasets : List String) (n_clicks : Int) :
    get_files_list fs cfg (Args.mk none none none none mode datasets n_clicks) =
      Except.error
        "UnboundLocalError: local variable files_list referenced before assignment" ∧
    ∀ l,
      get_files_list fs cfg (Args.mk none none none none mode datasets n_clicks) ≠
        Except.ok l := by
  refine ⟨rfl, ?_⟩
  intro l h
  have h2 :=
    show (Except.error
        "UnboundLocalError: local variable files_list referenced before assignment" :
      Except String (List String)) = Except.ok l from h
  simp at h2

/-- C5 counterexample: in explicit-files mode a repeated input path survives
to the output list, so the resolver's result is not duplicate-free. -/
theorem C5_counterexample :
    get_files_list (fun _ => []) (Cfg.mk "E")
        (Args.mk none (some ["a.pickle", "a.pickle"]) none none none ["a"] (-1)) =
      Except.ok ["a.pickle", "a.pickle"] ∧
    ¬ (["a.pickle", "a.pickle"] : List String).Nodup := by
  exact ⟨rfl, by decide⟩

/-- C5 (amended): in every input mode the resolver's returned list is
lexicographically sorted; duplicates are not removed (repeated inputs yield
repeated entries). -/
theorem C5_sorted (fs : String → List String) (cfg : Cfg) (args : Args)
    (l : List String) (h : get_files_list fs cfg args = Except.ok l) :
    l.Pairwise (fun a b => strLeB a b = true) := by
  obtain ⟨files0, _, hl⟩ := get_files_list_ok fs cfg args l h
  rw [hl]
  exact sortStr_sorted _

/-- C5 witness: the duplicate-files run is sorted (with equal neighbours). -/
theorem C5_sorted_witness :
    (["a.pickle", "a.pickle"] : List String).Pairwise
      (fun a b => strLeB a b = true) :=
  C5_sorted (fun _ => []) (Cfg.mk "E")
    (Args.mk none (some ["a.pickle", "a.pickle"]) none none none ["a"] (-1))
    ["a.pickle", "a.pickle"] rfl

/-- C6 counterexample: `--mode` given with zero values (`args.mode = []`)
is "no click-mode requested", yet the filter removes every file — here a
file whose stem does contain the requested dataset substring is dropped,
where the claim says it must be kept. -/
theorem C6_counterexample :
    get_files_list (fun _ => []) (Cfg.mk "E")
        (Args.mk none (some ["NoBRS_GrabCut.pickle"]) none none (some [])
          ["GrabCut"] (-1)) =
      Except.ok [] ∧
    datasetKeeps ["GrabCut"] "NoBRS_GrabCut.pickle" = true ∧
    ∀ l,
      get_files_list (fun _ => []) (Cfg.mk "E")
          (Args.mk none (some ["NoBRS_GrabCut.pickle"]) none none (some [])
            ["GrabCut"] (-1)) =
        Except.ok l →
      "NoBRS_GrabCut.pickle" ∉ l := by
  refine ⟨rfl, by decide, ?_⟩
  intro l h
  have h2 :=
    show (Except.ok ([] : List String) : Except String (List String)) =
        Except.ok l from h
  simp only [Except.ok.injEq] at h2
  rw [← h2]
  simp

/-- C6 (amended): a resolved file is kept exactly when it passes the
dataset-substring filter on its stem AND the mode filter, where the mode
filter is applied whenever `--mode` was given (`args.mode ≠ none`): it then
keeps files whose stem contains at least one listed mode, so a present but
empty mode list removes every file, while an absent `--mode` removes
none. -/
theorem C6_post_filter (fs : String → List String) (cfg : Cfg) (args : Args)
    (files0 l : List String) (x : String)
    (hres : resolve_source fs cfg args = Except.ok (some files0))
    (hget : get_files_list fs cfg args = Except.ok l) :
    x ∈ l ↔
      x ∈ files0 ∧ modeKeeps args.mode x = true ∧
        datasetKeeps args.datasets x = true := by
  obtain ⟨f0, hres2, hl⟩ := get_files_list_ok fs cfg args l hget
  rw [hres] at hres2
  simp only [Except.ok.injEq, Option.some.injEq] at hres2
  subst hres2
  rw [hl, mem_sortStr]
  simp only [List.mem_filter, and_assoc]

/-- C6 witness: one mode requested, two files, one dataset filter. -/
theorem C6_post_filter_witness :
    "NoBRS_GrabCut.pickle" ∈ ["NoBRS_GrabCut.pickle"] ↔
      "NoBRS_GrabCut.pickle" ∈ ["NoBRS_GrabCut.pickle", "NoBRS_Berkeley.pickle"] ∧
        modeKeeps (some ["NoBRS"]) "NoBRS_GrabCut.pickle" = true ∧
        datasetKeeps ["GrabCut"] "NoBRS_GrabCut.pickle" = true :=
  C6_post_filter (fun _ => []) (Cfg.mk "E")
    (Args.mk none (some ["NoBRS_GrabCut.pickle", "NoBRS_Berkeley.pickle"]) none
      none (some ["NoBRS"]) ["GrabCut"] (-1))
    ["NoBRS_GrabCut.pickle", "NoBRS_Berkeley.pickle"] ["NoBRS_GrabCut.pickle"]
    "NoBRS_GrabCut.pickle" rfl rfl

/-- If every `--exp-models` entry splits on `:` into exactly two parts but
some entry's experiment glob does not match exactly one directory, the
branch ends in the assertion failure. -/
theorem exp_models_files_assert (fs : String → List String) (cfg : Cfg) :
    ∀ es : List String,
      (∀ e ∈ es, ∃ rel ck, splitChar ':' e.data = [rel, ck]) →
      (∃ e ∈ es, ∃ rel ck, splitChar ':' e.data = [rel, ck] ∧
          (exp_candidates fs cfg (String.mk rel)).length ≠ 1) →
      exp_models_files fs cfg es =
        Except.error "AssertionError: Invalid experiment path."
  | [] => by
    intro _ hbad
    obtain ⟨e, he, _⟩ := hbad
    simp at he
  | e :: rest => by
    intro hsplit hbad
    obtain ⟨rel, ck, heq⟩ := hsplit e (by simp)
    by_cases hc : (exp_candidates fs cfg (String.mk rel)).length = 1
    · have hbad2 : ∃ e2 ∈ rest, ∃ rel2 ck2,
          splitChar ':' e2.data = [rel2, ck2] ∧
          (exp_candidates fs cfg (String.mk rel2)).length ≠ 1 := by
        obtain ⟨e2, he2, rel2, ck2, heq2, hne⟩ := hbad
        rcases List.mem_cons.mp he2 with h | hmem
        · subst h
          rw [heq] at heq2
          simp only [List.cons.injEq, and_true] at heq2
          rw [← heq2.1] at hne
          exact absurd hc hne
        · exact ⟨e2, hmem, rel2, ck2, heq2, hne⟩
      have ih := exp_models_files_assert fs cfg rest
        (fun x hx => hsplit x (by simp [hx])) hbad2
      simp only [exp_models_files, heq, if_pos hc, ih]
    · simp only [exp_models_files, heq, if_neg hc]

/-- C7: when some `--exp-models` entry of the form `path:prefix` glob-matches
zero or several experiment directories, the whole run fails with the
assertion error and no container file is opened. -/
theorem C7_exp_models_assert (fs : String → List String) (cfg : Cfg)
    (mode : Option (List String)) (datasets : List String) (n_clicks : Int)
    (es : List String)
    (hsplit : ∀ e ∈ es, ∃ rel ck, splitChar ':' e.data = [rel, ck])
    (hbad : ∃ e ∈ es, ∃ rel ck, splitChar ':' e.data = [rel, ck] ∧
        (exp_candidates fs cfg (String.mk rel)).length ≠ 1) :
    get_files_list fs cfg
        (Args.mk none none none (some es) mode datasets n_clicks) =
      Except.error "AssertionError: Invalid experiment path." ∧
    opened_files fs cfg
        (Args.mk none none none (some es) mode datasets n_clicks) = [] := by
  have herr := exp_models_files_assert fs cfg es hsplit hbad
  have h1 : get_files_list fs cfg
      (Args.mk none none none (some es) mode datasets n_clicks) =
      Except.error "AssertionError: Invalid experiment path." := by
    simp only [get_files_list, resolve_source, herr, Except.map]
  exact ⟨h1, by unfold opened_files; rw [h1]⟩

/-- C7 witness: one malformed experiment (`a:b` matching no directory). -/
theorem C7_exp_models_assert_witness :
    get_files_list (fun _ => []) (Cfg.mk "E")
        (Args.mk none none none (some ["a:b"]) none ["GrabCut"] (-1)) =
      Except.error "AssertionError: Invalid experiment path." ∧
    opened_files (fun _ => []) (Cfg.mk "E")
        (Args.mk none none none (some ["a:b"]) none ["GrabCut"] (-1)) = [] :=
  C7_exp_models_assert (fun _ => []) (Cfg.mk "E") none ["GrabCut"] (-1) ["a:b"]
    (fun e he => by
      simp only [List.mem_singleton] at he
      subst he
      exact ⟨['a'], ['b'], by decide⟩)
    ⟨"a:b", by simp, ['a'], ['b'], by decide, by decide⟩

/-- In a sorted list, an element that is an upper bound of the whole list is
the last element. -/
theorem sorted_max_getLast :
    ∀ (s : List String) (m : String),
      s.Pairwise (fun a b => strLeB a b = true) →
      m ∈ s → (∀ x ∈ s, strLeB x m = true) →
      s.getLast? = some m
  | [], m, _, hm, _ => absurd hm (List.not_mem_nil m)
  | [a], m, _, hm, _ => by
    simp only [List.mem_singleton] at hm
    subst hm
    rfl
  | a :: b :: t, m, hp, hm, hb => by
    have hp2 : (b :: t).Pairwise (fun a b => strLeB a b = true) := hp.of_cons
    have hm2 : m ∈ b :: t := by
      rcases List.mem_cons.mp hm with h | h
      · subst h
        have hab : strLeB m b = true :=
          (List.pairwise_cons.mp hp).1 b (by simp)
        have hba : strLeB b m = true := hb b (by simp)
        have : b = m := strLeB_antisymm b m hba hab
        rw [← this]
        simp
      · exact h
    have hb2 : ∀ x ∈ b :: t, strLeB x m = true :=
      fun x hx => hb x (List.mem_cons_of_mem a hx)
    rw [List.getLast?_cons_cons]
    exact sorted_max_getLast (b :: t) m hp2 hm2 hb2

/-- The last element of `sortStr l` is any member of `l` that bounds all of
`l` from above. -/
theorem sortStr_getLast_max (l : List String) (m : String)
    (hm : m ∈ l) (hb : ∀ x ∈ l, strLeB x m = true) :
    (sortStr l).getLast? = some m :=
  sorted_max_getLast (sortStr l) m (sortStr_sorted l)
    (mem_sortStr.mpr hm) (fun x hx => hb x (mem_sortStr.mp hx))

/-- C8 counterexample: in a directory holding `GrabCut_10.png` and
`GrabCut_5.png` the highest index present is 10, so the claim demands
`GrabCut_011.png`; the code parses the lexicographically last file
(`GrabCut_5.png`) and produces `GrabCut_006.png`. -/
theorem C8_counterexample :
    get_target_file_path ["GrabCut_10.png", "GrabCut_5.png"] "GrabCut" =
      Except.ok "GrabCut_006.png" ∧
    "GrabCut_006.png" ≠ "GrabCut_011.png" := by
  exact ⟨rfl, by decide⟩

/-- C8 (amended): the chosen name is the dataset name, an underscore and a
3-digit zero-padded index, where the index is 0 when no `<ds>_*.png` file
exists and otherwise one greater than the integer parsed from the stem of
the lexicographically greatest matching filename (which is the highest
index present whenever all matching files use the canonical 3-digit form);
three successive renders into an initially empty directory produce
`GrabCut_000.png`, `GrabCut_001.png`, `GrabCut_002.png`. -/
theorem C8_filename_scheme :
    (∀ dirFiles ds, previousPlots dirFiles ds = [] →
        get_target_file_path dirFiles ds =
          Except.ok (ds ++ "_" ++ pad3 0 ++ ".png")) ∧
    (∀ dirFiles ds m i,
        m ∈ previousPlots dirFiles ds →
        (∀ x ∈ previousPlots dirFiles ds, strLeB x m = true) →
        parseNatChars ((splitChar '_' (pyStem m).data).getLastD []) = some i →
        get_target_file_path dirFiles ds =
          Except.ok (ds ++ "_" ++ pad3 (i + 1) ++ ".png")) ∧
    get_target_file_path [] "GrabCut" = Except.ok "GrabCut_000.png" ∧
    get_target_file_path ["GrabCut_000.png"] "GrabCut" =
      Except.ok "GrabCut_001.png" ∧
    get_target_file_path ["GrabCut_000.png", "GrabCut_001.png"] "GrabCut" =
      Except.ok "GrabCut_002.png" := by
  refine ⟨?_, ?_, rfl, rfl, rfl⟩
  · intro dirFiles ds h
    unfold get_target_file_path
    rw [h]
    rfl
  · intro dirFiles ds m i hm hb hp
    unfold get_target_file_path
    rw [sortStr_getLast_max _ m hm hb]
    show (match parseNatChars ((splitChar '_' (pyStem m).data).getLastD []) with
      | none => Except.error "ValueError: invalid literal for int()"
      | some i => Except.ok (ds ++ "_" ++ pad3 (i + 1) ++ ".png")) = _
    rw [hp]

/-- C8 witness: an out-of-order directory listing with indices 000 and 001
yields index 002. -/
theorem C8_filename_scheme_witness :
    get_target_file_path ["GrabCut_001.png", "GrabCut_000.png"] "GrabCut" =
      Except.ok ("GrabCut" ++ "_" ++ pad3 (1 + 1) ++ ".png") :=
  C8_filename_scheme.2.1 ["GrabCut_001.png", "GrabCut_000.png"] "GrabCut"
    "GrabCut_001.png" 1 (by decide) (by decide) (by decide)

/-- The figure rendered for one dataset whose display name is missing from
`range_mapper` is aborted by the `KeyError`, for any state of the plots
directory, provided the per-model loop itself succeeded. -/
theorem render_dataset_keyerror (n : Int) (dirFiles : List String)
    (dsBad : String) (models : List (String × List ℚ))
    (hmodels :
      models.foldlM (fun _ m => (model_render n m.2).map (fun _ => ())) () =
        Except.ok ())
    (hbad :
      lookupA range_mapper (if dsBad = "PascalVOC" then "Pascal VOC" else dsBad) =
        none) :
    render_dataset n dirFiles dsBad models =
      Except.error
        ("KeyError: " ++ (if dsBad = "PascalVOC" then "Pascal VOC" else dsBad)) := by
  unfold render_dataset
  rw [hmodels]
  simp only [hbad]

/-- C9: if the datasets before `dsBad` all rendered (their figures
`savedPre` were saved, one per dataset), `dsBad`'s models are well-formed,
and `dsBad`'s display name is absent from the axis-range table, the run
stops with the uncaught `KeyError`: the earlier figures stay saved and no
figure is written for `dsBad` or anything after it. -/
theorem C9_render_keyerror (n : Int) (dirFiles : List String)
    (pre : List (String × List (String × List ℚ)))
    (dsBad : String) (models : List (String × List ℚ))
    (rest : List (String × List (String × List ℚ)))
    (savedPre finalDir : List String)
    (hpre : render_all n dirFiles pre = (savedPre, finalDir, none))
    (hmodels :
      models.foldlM (fun _ m => (model_render n m.2).map (fun _ => ())) () =
        Except.ok ())
    (hbad :
      lookupA range_mapper (if dsBad = "PascalVOC" then "Pascal VOC" else dsBad) =
        none) :
    render_all n dirFiles (pre ++ (dsBad, models) :: rest) =
      (savedPre, finalDir,
        some ("KeyError: " ++ (if dsBad = "PascalVOC" then "Pascal VOC" else dsBad))) ∧
    savedPre.length = pre.length := by
  induction pre generalizing dirFiles savedPre finalDir with
  | nil =>
    simp only [render_all, Prod.mk.injEq] at hpre
    obtain ⟨h1, h2, _⟩ := hpre
    subst h1
    subst h2
    constructor
    · simp only [List.nil_append, render_all,
        render_dataset_keyerror n dirFiles dsBad models hmodels hbad]
    · rfl
  | cons hd pre2 ih =>
    cases hrd0 : render_dataset n dirFiles hd.1 hd.2 with
    | error e =>
      rw [show (hd :: pre2 : List (String × List (String × List ℚ))) =
          (hd.1, hd.2) :: pre2 from by rfl] at hpre
      simp only [render_all, hrd0, Prod.mk.injEq] at hpre
      exact absurd hpre.2.2 (by simp)
    | ok fig =>
      rcases hr : render_all n (dirFiles ++ [fig]) pre2 with ⟨s2, d2, e2⟩
      rw [show (hd :: pre2 : List (String × List (String × List ℚ))) =
          (hd.1, hd.2) :: pre2 from by rfl] at hpre
      simp only [render_all, hrd0, hr, Prod.mk.injEq] at hpre
      obtain ⟨h1, h2, h3⟩ := hpre
      have he2 : e2 = none := h3
      subst he2
      have ihr := ih (dirFiles ++ [fig]) s2 d2 hr
      refine ⟨?_, ?_⟩
      · rw [show ((hd :: pre2) ++ (dsBad, models) :: rest :
            List (String × List (String × List ℚ))) =
            (hd.1, hd.2) :: (pre2 ++ (dsBad, models) :: rest) from by simp,
          ← h1, ← h2]
        simp only [render_all, hrd0, ihr.1]
      · rw [← h1]
        simp [ihr.2]

/-- C9 witness: "GrabCut" renders and saves its figure, then "Foo" (absent
from the axis-range table) aborts the run with the KeyError. -/
theorem C9_render_keyerror_witness :
    render_all (-1) []
        ([("GrabCut", [("m1", [(1 : ℚ)/2, 3/4])])] ++
          ("Foo", [("m2", [(1 : ℚ)/2, 3/4])]) :: []) =
      (["GrabCut_000.png"], ["GrabCut_000.png"],
        some ("KeyError: " ++ (if "Foo" = "PascalVOC" then "Pascal VOC" else "Foo"))) ∧
    (["GrabCut_000.png"] : List String).length =
      [("GrabCut", [("m1", [(1 : ℚ)/2, 3/4])])].length :=
  C9_render_keyerror (-1) [] [("GrabCut", [("m1", [(1 : ℚ)/2, 3/4])])] "Foo"
    [("m2", [(1 : ℚ)/2, 3/4])] [] ["GrabCut_000.png"] ["GrabCut_000.png"]
    (by with_unfolding_all decide) (by with_unfolding_all rfl) (by decide)

end PlotIous
